import Mathlib

/-!
Shallow embedding of the payment-stage lifecycle, budget-negotiation and
settlement-document logic of `src/server/routes.ts`.

Tables of the relational store (users, projects, paymentStages,
notifications, budgetNegotiations, projectTimeline) are modelled as lists
inside a `DB` structure; the persistence API (`storage.*` / drizzle
queries) is the external collaborator of §2/§6 of the spec and is embedded
as the obvious find/filter/map operations on those lists.  Route handlers
become functions `DB → … → HandlerOut α`: they return the resulting store,
the e-mails sent during the request, and either a successful payload or an
`ApiError` (the HTTP 404/400/403/500 taxonomy of §7).

Two Booleans model the health of the downstream channels: `emailOk`
(whether `sendEmail`-style calls succeed) and `notifOk` (whether
`storage.createNotification` succeeds).  A `false` value makes the
corresponding call throw at its call site, which then either is caught by
a surrounding try/catch (e-mails) or propagates to the handler's outer
catch (notification rows), exactly as in the source.

Timestamps (`new Date()` / `Date.now()`) are a `now : Nat` parameter;
decimal prices (`parseFloat`) are modelled exactly as rationals.
-/

/-- A row of the `users` table (the fields the embedded routes read). -/
structure User where
  id : Nat
  role : String
  email : String
  fullName : String
deriving Repr, DecidableEq

/-- A row of the `projects` table (the fields the embedded routes read). -/
structure Project where
  id : Nat
  clientId : Nat
  name : String
  price : ℚ
  status : String
deriving Repr, DecidableEq

/-- The `fileInfo` object stored inside a stage's `paymentData`
(`proofFileInfo` from the request body, or synthesized from the uploaded
file in routes.ts:1156-1160). -/
structure FileInfo where
  fileName : String
  fileSize : Nat
  fileType : String
deriving Repr, DecidableEq

/-- The uploaded file produced by multer (`req.file`): the fields
routes.ts reads. -/
structure FileUpload where
  originalname : String
  size : Nat
  mimetype : String
deriving Repr, DecidableEq

/-- The free-form `paymentData` JSON column of a payment stage.  A JS
object with absent keys is modelled by `none` fields; spreading
(`...stage[0].paymentData`) keeps every old field and overrides the ones
written. -/
structure PaymentData where
  confirmedBy : Option Nat := none
  confirmedAt : Option Nat := none
  method : Option String := none
  fileInfo : Option FileInfo := none
  originalFileName : Option String := none
  rejectedBy : Option Nat := none
  rejectedAt : Option Nat := none
  rejectionReason : Option String := none
deriving Repr, DecidableEq

/-- A row of the `paymentStages` table. -/
structure PaymentStage where
  id : Nat
  projectId : Nat
  stageName : String
  stagePercentage : ℚ
  amount : ℚ
  requiredProgress : Int
  status : String
  paymentMethod : Option String := none
  proofFileUrl : Option String := none
  paymentData : PaymentData := {}
  paidAt : Option Nat := none
  approvedBy : Option Nat := none
  approvedAt : Option Nat := none
deriving Repr, DecidableEq

/-- A row of the `notifications` table as created by
`storage.createNotification`. -/
structure Notification where
  userId : Nat
  title : String
  message : String
  type : String
deriving Repr, DecidableEq

/-- A row of the `budgetNegotiations` table. -/
structure BudgetNegotiation where
  id : Nat
  projectId : Nat
  proposedBy : Nat
  originalPrice : ℚ
  proposedPrice : ℚ
  message : Option String
  status : String
deriving Repr, DecidableEq

/-- A row of the `projectTimeline` table (the fields the embedded route
writes). -/
structure TimelineItem where
  projectId : Nat
  title : String
  description : String
  status : String
deriving Repr, DecidableEq

/-- An outbound e-mail: recipient and which template produced it.  Bodies
are rendered in `server/email.ts` (an excluded collaborator); only the
fact and the target of the send matter here.  (`to` is a Lean keyword, so
the source's `to` field is named `toAddr`.) -/
structure Email where
  toAddr : String
  tag : String
deriving Repr, DecidableEq

/-- The relational store.  `nextStageId` / `nextNegotiationId` model the
serial primary-key generators of the underlying SQL tables. -/
structure DB where
  users : List User := []
  projects : List Project := []
  paymentStages : List PaymentStage := []
  notifications : List Notification := []
  budgetNegotiations : List BudgetNegotiation := []
  timeline : List TimelineItem := []
  nextStageId : Nat := 1
  nextNegotiationId : Nat := 1
deriving Repr, DecidableEq

/-- §7 error taxonomy: 404, 400 invalid-state, 403, 500. -/
inductive ApiError where
  | notFound (msg : String)
  | invalidState (msg : String)
  | forbidden (msg : String)
  | internal (msg : String)
deriving Repr, DecidableEq

/-- Result of one request: the store afterwards, the e-mails sent during
the request, and the response. -/
structure HandlerOut (α : Type) where
  db : DB
  emails : List Email
  resp : Except ApiError α
deriving Repr

/-! ### The persistence API (external collaborator, §2 item 1 / §6) -/

/-- `storage.getUserById`. -/
def getUserById (db : DB) (uid : Nat) : Option User :=
  db.users.find? (fun u => u.id == uid)

/-- `storage.getUsersByRole`. -/
def getUsersByRole (db : DB) (role : String) : List User :=
  db.users.filter (fun u => u.role == role)

/-- `storage.getProject`. -/
def getProject (db : DB) (pid : Nat) : Option Project :=
  db.projects.find? (fun p => p.id == pid)

/-- `db.select().from(paymentStages).where(eq(paymentStages.id, stageId)).limit(1)`. -/
def getPaymentStage (db : DB) (sid : Nat) : Option PaymentStage :=
  db.paymentStages.find? (fun s => s.id == sid)

/-- `storage.getPaymentStages(projectId)`. -/
def getPaymentStages (db : DB) (pid : Nat) : List PaymentStage :=
  db.paymentStages.filter (fun s => s.projectId == pid)

/-- `storage.getBudgetNegotiation` / the drizzle select by id. -/
def getNegotiation (db : DB) (nid : Nat) : Option BudgetNegotiation :=
  db.budgetNegotiations.find? (fun n => n.id == nid)

/-- `storage.updatePaymentStage(stageId, updates)`: merge the given field
updates into the row with that id. -/
def updateStageIn (db : DB) (sid : Nat) (f : PaymentStage → PaymentStage) : DB :=
  { db with paymentStages := db.paymentStages.map (fun s => if s.id == sid then f s else s) }

/-- `storage.updateProject(projectId, updates)`. -/
def updateProjectIn (db : DB) (pid : Nat) (f : Project → Project) : DB :=
  { db with projects := db.projects.map (fun p => if p.id == pid then f p else p) }

/-- `storage.updateBudgetNegotiation(negotiationId, updates)`. -/
def updateNegotiationIn (db : DB) (nid : Nat) (f : BudgetNegotiation → BudgetNegotiation) : DB :=
  { db with budgetNegotiations :=
      db.budgetNegotiations.map (fun n => if n.id == nid then f n else n) }

/-- `storage.createNotification`. -/
def addNotification (db : DB) (n : Notification) : DB :=
  { db with notifications := db.notifications ++ [n] }

/-- `storage.hasProjectTimeline`. -/
def hasProjectTimeline (db : DB) (pid : Nat) : Bool :=
  db.timeline.any (fun t => t.projectId == pid)

/-! ### POST /api/payment-stages/:id/confirm-payment (routes.ts:1107-1225) -/

/-- `proofFileInfo.fileType?.split('/')[1] || 'jpg'` (routes.ts:1145):
the part after the slash of the MIME type, falling back to `jpg` when it
is absent or empty (JS falsy). -/
def fileExtension (fileType : String) : String :=
  match (fileType.splitOn "/").get? 1 with
  | some ext => if ext == "" then "jpg" else ext
  | none => "jpg"

/-- The synthesized proof-file reference name (routes.ts:1141-1146):
`comprobante_<stageId>_<Date.now()>_<originalname>` when a file was
uploaded, `comprobante_<stageId>_<Date.now()>.<ext>` when only a file
descriptor was given, `null` otherwise. -/
def synthProofFileUrl (stageId : Nat) (now : Nat)
    (proofFile : Option FileUpload) (proofFileInfo : Option FileInfo) : Option String :=
  match proofFile with
  | some f => some ("comprobante_" ++ toString stageId ++ "_" ++ toString now ++ "_" ++ f.originalname)
  | none =>
    match proofFileInfo with
    | some info =>
        some ("comprobante_" ++ toString stageId ++ "_" ++ toString now ++ "." ++
          fileExtension info.fileType)
    | none => none

/-- The `paymentData` object written by confirm-payment
(routes.ts:1152-1162); it replaces the previous value wholesale. -/
def confirmPaymentData (userId now : Nat) (paymentMethod : String)
    (proofFile : Option FileUpload) (proofFileInfo : Option FileInfo) : PaymentData :=
  { confirmedBy := some userId
    confirmedAt := some now
    method := some paymentMethod
    fileInfo :=
      match proofFileInfo with
      | some info => some info
      | none => proofFile.map (fun f =>
          { fileName := f.originalname, fileSize := f.size, fileType := f.mimetype })
    originalFileName := proofFile.map (fun f => f.originalname) }

/-- The admin notification message of routes.ts:1171. -/
def confirmNotifMessage (clientName stageName paymentMethod : String)
    (proofFile : Option FileUpload) : String :=
  "El cliente " ++ clientName ++ " envió comprobante de pago para \"" ++ stageName ++
    "\" mediante " ++ paymentMethod ++ ". " ++
    (match proofFile with
     | some f => "Comprobante adjunto: " ++ f.originalname
     | none => "Sin comprobante adjunto") ++
    ". Requiere verificación."

/-- Handler body of `POST /api/payment-stages/:id/confirm-payment`
(routes.ts:1107-1225): look up stage, project and client (404 on each
miss, nothing written); update the stage to `pending_verification`
recording method, synthesized proof-file name and `paymentData`; create a
warning notification for every admin (a `storage.createNotification`
failure propagates to the outer catch → 500, the stage update stays);
then send the two e-mails inside a try/catch whose failure is only
logged. -/
def confirmPayment (db : DB) (stageId : Nat) (userId : Nat) (paymentMethod : String)
    (proofFile : Option FileUpload) (proofFileInfo : Option FileInfo) (now : Nat)
    (emailOk notifOk : Bool) : HandlerOut PaymentStage :=
  match getPaymentStage db stageId with
  | none => ⟨db, [], .error (.notFound "Etapa no encontrada")⟩
  | some stage =>
    match getProject db stage.projectId with
    | none => ⟨db, [], .error (.notFound "Proyecto no encontrado")⟩
    | some project =>
      match getUserById db project.clientId with
      | none => ⟨db, [], .error (.notFound "Cliente no encontrado")⟩
      | some client =>
        let updatedStage : PaymentStage :=
          { stage with
              paymentMethod := some paymentMethod
              proofFileUrl := synthProofFileUrl stageId now proofFile proofFileInfo
              status := "pending_verification"
              paymentData := confirmPaymentData userId now paymentMethod proofFile proofFileInfo }
        let db1 := updateStageIn db stageId (fun s =>
          { s with
              paymentMethod := some paymentMethod
              proofFileUrl := synthProofFileUrl stageId now proofFile proofFileInfo
              status := "pending_verification"
              paymentData := confirmPaymentData userId now paymentMethod proofFile proofFileInfo })
        if notifOk then
          let admins := getUsersByRole db1 "admin"
          let db2 := admins.foldl (fun d a => addNotification d
            { userId := a.id
              title := "📋 Comprobante de Pago Recibido"
              message := confirmNotifMessage client.fullName stage.stageName paymentMethod proofFile
              type := "warning" }) db1
          let sent : List Email :=
            if emailOk then
              [⟨"admin", "paymentProofNotificationToAdmin"⟩,
               ⟨client.email, "paymentProofConfirmationToClient"⟩]
            else []
          ⟨db2, sent, .ok updatedStage⟩
        else
          ⟨db1, [], .error (.internal "Error interno del servidor")⟩

/-! ### POST /api/payment-stages/:id/approve-payment (routes.ts:1227-1282) -/

/-- The client notification message of routes.ts:1267. -/
def approveNotifMessage (stageName : String) : String :=
  "Tu pago para la etapa \"" ++ stageName ++
    "\" ha sido verificado y aprobado. ¡Continuamos con el desarrollo!"

/-- Handler body of `POST /api/payment-stages/:id/approve-payment`
(routes.ts:1227-1282): 404 on missing stage; 400 when the status is not
`pending_verification`; 404 on missing project or client; otherwise set
the stage to `paid` with `paidAt`/`approvedBy`/`approvedAt` and create one
success notification for the project's client (a failure there propagates
to the outer catch → 500, the stage update stays). -/
def approvePayment (db : DB) (stageId : Nat) (adminId : Nat) (now : Nat)
    (notifOk : Bool) : HandlerOut PaymentStage :=
  match getPaymentStage db stageId with
  | none => ⟨db, [], .error (.notFound "Etapa no encontrada")⟩
  | some stage =>
    if stage.status != "pending_verification" then
      ⟨db, [], .error (.invalidState "Esta etapa no está pendiente de verificación")⟩
    else
      match getProject db stage.projectId with
      | none => ⟨db, [], .error (.notFound "Proyecto no encontrado")⟩
      | some project =>
        match getUserById db project.clientId with
        | none => ⟨db, [], .error (.notFound "Cliente no encontrado")⟩
        | some _client =>
          let updatedStage : PaymentStage :=
            { stage with
                status := "paid", paidAt := some now
                approvedBy := some adminId, approvedAt := some now }
          let db1 := updateStageIn db stageId (fun s =>
            { s with
                status := "paid", paidAt := some now
                approvedBy := some adminId, approvedAt := some now })
          if notifOk then
            let db2 := addNotification db1
              { userId := project.clientId
                title := "✅ Pago Aprobado"
                message := approveNotifMessage stage.stageName
                type := "success" }
            ⟨db2, [], .ok updatedStage⟩
          else
            ⟨db1, [], .error (.internal "Error al aprobar pago")⟩

/-! ### POST /api/payment-stages/:id/reject-payment (routes.ts:1284-1339) -/

/-- The client notification message of routes.ts:1324: contains the
rejection reason verbatim. -/
def rejectNotifMessage (stageName reason : String) : String :=
  "Tu comprobante de pago para \"" ++ stageName ++ "\" fue rechazado. Motivo: " ++
    reason ++ ". Por favor, envía un nuevo comprobante."

/-- Handler body of `POST /api/payment-stages/:id/reject-payment`
(routes.ts:1284-1339): 404 on missing stage; 400 when the status is not
`pending_verification`; 404 on missing project; otherwise set the stage
back to `available`, clear `paymentMethod` and `proofFileUrl`, spread the
old `paymentData` with the rejection fields, and create one error
notification for the project's client (a failure there propagates to the
outer catch → 500, the stage update stays). -/
def rejectPayment (db : DB) (stageId : Nat) (adminId : Nat) (reason : String) (now : Nat)
    (notifOk : Bool) : HandlerOut PaymentStage :=
  match getPaymentStage db stageId with
  | none => ⟨db, [], .error (.notFound "Etapa no encontrada")⟩
  | some stage =>
    if stage.status != "pending_verification" then
      ⟨db, [], .error (.invalidState "Esta etapa no está pendiente de verificación")⟩
    else
      match getProject db stage.projectId with
      | none => ⟨db, [], .error (.notFound "Proyecto no encontrado")⟩
      | some project =>
        let updatedStage : PaymentStage :=
          { stage with
              status := "available"
              paymentMethod := none
              proofFileUrl := none
              paymentData :=
                { stage.paymentData with
                    rejectedBy := some adminId
                    rejectedAt := some now
                    rejectionReason := some reason } }
        let db1 := updateStageIn db stageId (fun s =>
          { s with
              status := "available"
              paymentMethod := none
              proofFileUrl := none
              paymentData :=
                { s.paymentData with
                    rejectedBy := some adminId
                    rejectedAt := some now
                    rejectionReason := some reason } })
        if notifOk then
          let db2 := addNotification db1
            { userId := project.clientId
              title := "❌ Pago Rechazado"
              message := rejectNotifMessage stage.stageName reason
              type := "error" }
          ⟨db2, [], .ok updatedStage⟩
        else
          ⟨db1, [], .error (.internal "Error al rechazar pago")⟩

/-! ### POST /api/projects/:id/payment-stages (routes.ts:954-1071) -/

/-- One entry of the `stages` request-body list. -/
structure StageSpec where
  name : String
  percentage : ℚ
  requiredProgress : Int
deriving Repr, DecidableEq

/-- The `stageData` object of routes.ts:969-976: amount is
`parseFloat(project.price) * stage.percentage / 100`, status is
`available` exactly when `requiredProgress === 0`, else `pending`. -/
def mkStage (project : Project) (nextId : Nat) (spec : StageSpec) : PaymentStage :=
  { id := nextId
    projectId := project.id
    stageName := spec.name
    stagePercentage := spec.percentage
    amount := project.price * spec.percentage / 100
    requiredProgress := spec.requiredProgress
    status := if spec.requiredProgress == 0 then "available" else "pending" }

/-- The `for (const stage of stages)` creation loop, with the serial id
generator threaded through. -/
def createStagesLoop (project : Project) (nextId : Nat) : List StageSpec → List PaymentStage
  | [] => []
  | spec :: rest => mkStage project nextId spec :: createStagesLoop project (nextId + 1) rest

/-- The fixed six-step timeline seeded by routes.ts:1015-1052. -/
def timelineSeed (pid : Nat) : List TimelineItem :=
  [⟨pid, "Análisis y Planificación", "Análisis de requerimientos y planificación del proyecto", "pending"⟩,
   ⟨pid, "Diseño y Arquitectura", "Diseño de la interfaz y arquitectura del sistema", "pending"⟩,
   ⟨pid, "Desarrollo - Fase 1", "Desarrollo de funcionalidades principales (50% del proyecto)", "pending"⟩,
   ⟨pid, "Desarrollo - Fase 2", "Completar desarrollo y optimizaciones (90% del proyecto)", "pending"⟩,
   ⟨pid, "Testing y QA", "Pruebas exhaustivas y control de calidad", "pending"⟩,
   ⟨pid, "Entrega Final", "Entrega del proyecto completado y documentación", "pending"⟩]

/-- Handler body of `POST /api/projects/:id/payment-stages`
(routes.ts:954-1071): 404 on missing project; create one stage per spec;
e-mail the client once per stage created `available` (each send in its
own try/catch, so a failing channel is only logged); seed the six-step
timeline when the project has none yet. -/
def createPaymentStages (db : DB) (projectId : Nat) (specs : List StageSpec)
    (emailOk : Bool) : HandlerOut (List PaymentStage) :=
  match getProject db projectId with
  | none => ⟨db, [], .error (.notFound "Proyecto no encontrado")⟩
  | some project =>
    let created := createStagesLoop project db.nextStageId specs
    let db1 := { db with
      paymentStages := db.paymentStages ++ created
      nextStageId := db.nextStageId + specs.length }
    let availableStages := created.filter (fun s => s.status == "available")
    let sent : List Email :=
      if availableStages.isEmpty then []
      else
        match getUserById db1 project.clientId with
        | some client =>
          if client.email != "" && emailOk then
            availableStages.map (fun _ => ⟨client.email, "paymentStageAvailable"⟩)
          else []
        | none => []
    let db2 :=
      if hasProjectTimeline db1 projectId then db1
      else { db1 with timeline := db1.timeline ++ timelineSeed projectId }
    ⟨db2, sent, .ok created⟩

/-! ### PUT /api/budget-negotiations/:id/respond (routes.ts:734-832) -/

/-- `storage.createBudgetNegotiation`, with the serial id generator. -/
def createNegotiationRow (db : DB) (projectId proposedBy : Nat)
    (originalPrice proposedPrice : ℚ) (message : Option String) (status : String) : DB :=
  { db with
      budgetNegotiations := db.budgetNegotiations ++
        [{ id := db.nextNegotiationId, projectId := projectId, proposedBy := proposedBy
           originalPrice := originalPrice, proposedPrice := proposedPrice
           message := message, status := status }]
      nextNegotiationId := db.nextNegotiationId + 1 }

/-- `counterPrice &&` of routes.ts:807 — JS truthiness of the numeric
counter price: present and non-zero. -/
def counterPriceTruthy : Option ℚ → Bool
  | none => false
  | some p => p != 0

/-- Handler body of `PUT /api/budget-negotiations/:id/respond`
(routes.ts:734-832).  For `status == "accepted"` and an existing
negotiation: overwrite the project's price with the proposed price and
force its status to `in_progress`, then send acceptance e-mails to every
admin and to the fixed system mailbox (each in its own try/catch).  For
`status == "countered"` with a truthy counter price and an existing
negotiation: append a brand-new `pending` negotiation whose
`originalPrice` is the old row's `proposedPrice`.  In every case finish by
writing `status` into the addressed negotiation row and returning it. -/
def respondBudgetNegotiation (db : DB) (negotiationId : Nat) (userId : Nat)
    (status : String) (message : Option String) (counterPrice : Option ℚ)
    (emailOk : Bool) : HandlerOut (Option BudgetNegotiation) :=
  let acceptStep : DB × List Email :=
    if status == "accepted" then
      match getNegotiation db negotiationId with
      | some negotiation =>
        let dbA := updateProjectIn db negotiation.projectId (fun p =>
          { p with price := negotiation.proposedPrice, status := "in_progress" })
        let sent : List Email :=
          match getProject dbA negotiation.projectId with
          | some project =>
            match getUserById dbA project.clientId with
            | some _client =>
              if emailOk then
                ((getUsersByRole dbA "admin").filterMap (fun a =>
                  if a.email != "" then some ⟨a.email, "budgetAcceptance"⟩ else none)) ++
                  [⟨"softwarepar.lat@gmail.com", "budgetAcceptance"⟩]
              else []
            | none => []
          | none => []
        (dbA, sent)
      | none => (db, [])
    else (db, [])
  let db1 := acceptStep.1
  let db2 :=
    if status == "countered" && counterPriceTruthy counterPrice then
      match getNegotiation db1 negotiationId with
      | some oldNegotiation =>
        createNegotiationRow db1 oldNegotiation.projectId userId
          oldNegotiation.proposedPrice ((counterPrice.getD 0)) message "pending"
      | none => db1
    else db1
  let db3 := updateNegotiationIn db2 negotiationId (fun n => { n with status := status })
  ⟨db3, acceptStep.2, .ok (getNegotiation db3 negotiationId)⟩

/-! ### GET /api/client/stage-invoices/:stageId/download (routes.ts:1390-1613)
    and /download-resimple (routes.ts:1616 ff.) -/

/-- The data contract of the settlement document that the claims inspect:
the stage's 1-based position among the project's stages sorted by
ascending `requiredProgress`, and the total stage count. -/
structure InvoiceInfo where
  stageNumber : Nat
  totalStages : Nat
deriving Repr, DecidableEq

/-- `allStages.sort((a, b) => a.requiredProgress - b.requiredProgress)`:
JS `Array.prototype.sort` is a stable ascending sort, embedded as the
stable `List.mergeSort`. -/
def sortStagesByProgress (l : List PaymentStage) : List PaymentStage :=
  l.mergeSort (fun a b => a.requiredProgress ≤ b.requiredProgress)

/-- Handler body of `GET /api/client/stage-invoices/:stageId/download`
(routes.ts:1390-1613), up to the data placed in the rendered PDF: 404 on
missing stage or project, 403 whenever the requester is not the project's
client (no role is consulted), 400 when the stage is not `paid`; on
success the stage number is `findIndex` in the progress-sorted stage list
plus one, with the total count alongside. -/
def downloadStageInvoice (db : DB) (stageId : Nat) (user : User) : Except ApiError InvoiceInfo :=
  match getPaymentStage db stageId with
  | none => .error (.notFound "Etapa no encontrada")
  | some stage =>
    match getProject db stage.projectId with
    | none => .error (.notFound "Proyecto no encontrado")
    | some project =>
      if project.clientId != user.id then
        .error (.forbidden "No tienes permisos para ver esta factura")
      else if stage.status != "paid" then
        .error (.invalidState "Esta etapa aún no ha sido pagada")
      else
        let sortedStages := sortStagesByProgress (getPaymentStages db stage.projectId)
        .ok { stageNumber := sortedStages.findIdx (fun s => s.id == stage.id) + 1
              totalStages := sortedStages.length }

/-- Handler body of `GET /api/client/stage-invoices/:stageId/download-resimple`
(routes.ts:1616 ff.): identical guard sequence (404/404/403/400) and the
same stage numbering; the extra billing-profile reads only feed the PDF
text and are not part of the inspected contract. -/
def downloadStageInvoiceResimple (db : DB) (stageId : Nat) (user : User) :
    Except ApiError InvoiceInfo :=
  match getPaymentStage db stageId with
  | none => .error (.notFound "Etapa no encontrada")
  | some stage =>
    match getProject db stage.projectId with
    | none => .error (.notFound "Proyecto no encontrado")
    | some project =>
      if project.clientId != user.id then
        .error (.forbidden "No tienes permisos para ver esta factura")
      else if stage.status != "paid" then
        .error (.invalidState "Esta etapa aún no ha sido pagada")
      else
        let sortedStages := sortStagesByProgress (getPaymentStages db stage.projectId)
        .ok { stageNumber := sortedStages.findIdx (fun s => s.id == stage.id) + 1
              totalStages := sortedStages.length }

/-- Decidable equality of handler responses (both components already
decidable). -/
instance {ε α : Type} [DecidableEq ε] [DecidableEq α] : DecidableEq (Except ε α) := fun a b =>
  match a, b with
  | .error e1, .error e2 =>
    if h : e1 = e2 then isTrue (h ▸ rfl) else isFalse (fun hc => h (by injection hc))
  | .error _, .ok _ => isFalse (fun hc => Except.noConfusion hc)
  | .ok _, .error _ => isFalse (fun hc => Except.noConfusion hc)
  | .ok v1, .ok v2 =>
    if h : v1 = v2 then isTrue (h ▸ rfl) else isFalse (fun hc => h (by injection hc))

/-! ### Concrete sample data (used by witnesses and counterexamples) -/

/-- A sample admin account. -/
def adminUser : User :=
  { id := 9, role := "admin", email := "admin@softwarepar.lat", fullName := "Admin SoftwarePar" }

/-- A sample client account, owner of `sampleProject`. -/
def clientUser : User :=
  { id := 2, role := "client", email := "cliente@example.com", fullName := "Carlos Cliente" }

/-- A sample project of price 1000 owned by `clientUser`. -/
def sampleProject : Project :=
  { id := 1, clientId := 2, name := "Sistema Web", price := 1000, status := "in_progress" }

/-- Payment metadata as left by a proof submission. -/
def samplePaymentData : PaymentData :=
  { confirmedBy := some 2, confirmedAt := some 50, method := some "transferencia_bancaria"
    fileInfo := some { fileName := "recibo.png", fileSize := 2048, fileType := "image/png" }
    originalFileName := some "recibo.png" }

/-- A first stage awaiting manual verification. -/
def pvStage : PaymentStage :=
  { id := 1, projectId := 1, stageName := "Etapa 1", stagePercentage := 50, amount := 500
    requiredProgress := 0, status := "pending_verification"
    paymentMethod := some "transferencia_bancaria"
    proofFileUrl := some "comprobante_1_50_recibo.png"
    paymentData := samplePaymentData }

/-- The same first stage already paid. -/
def paidStage : PaymentStage :=
  { id := 1, projectId := 1, stageName := "Etapa 1", stagePercentage := 50, amount := 500
    requiredProgress := 0, status := "paid"
    paymentMethod := some "transferencia_bancaria"
    proofFileUrl := some "comprobante_1_50_recibo.png"
    paymentData := samplePaymentData
    paidAt := some 100, approvedBy := some 9, approvedAt := some 100 }

/-- A second stage gated on 50% progress, still pending. -/
def pendingStage : PaymentStage :=
  { id := 2, projectId := 1, stageName := "Etapa 2", stagePercentage := 50, amount := 500
    requiredProgress := 50, status := "pending" }

/-- Store with the first stage awaiting verification. -/
def dbPV : DB :=
  { users := [adminUser, clientUser], projects := [sampleProject]
    paymentStages := [pvStage, pendingStage], nextStageId := 3 }

/-- Store with the first stage paid. -/
def dbPaid : DB :=
  { users := [adminUser, clientUser], projects := [sampleProject]
    paymentStages := [paidStage, pendingStage], nextStageId := 3 }

/-- The stage specifications of the spec's concrete scenario:
two 50% stages at progress thresholds 0 and 50. -/
def scenarioSpecs : List StageSpec :=
  [⟨"Etapa 1", 50, 0⟩, ⟨"Etapa 2", 50, 50⟩]

/-- A store holding only the price-1000 `sampleProject`, before any stage
exists. -/
def freshDB : DB :=
  { users := [adminUser, clientUser], projects := [sampleProject] }

/-- A pending negotiation: the client proposes 800 against the original
price 1000 of `sampleProject`. -/
def sampleNegotiation : BudgetNegotiation :=
  { id := 1, projectId := 1, proposedBy := 2, originalPrice := 1000,
    proposedPrice := 800, message := some "Presupuesto muy alto", status := "pending" }

/-- Store with `sampleNegotiation` pending and the two stages of
`dbPaid` already created (amount 500 each, captured at price 1000). -/
def dbNeg : DB :=
  { users := [adminUser, clientUser], projects := [sampleProject]
    paymentStages := [paidStage, pendingStage]
    budgetNegotiations := [sampleNegotiation]
    nextStageId := 3, nextNegotiationId := 2 }

/-! ### Helper lemmas about the persistence API -/

/-- `find?` by id after an update-by-id map is the mapped `find?`, as long
as the update keeps the id. -/
theorem find?_map_update {α : Type} (idOf : α → Nat) (f : α → α)
    (hf : ∀ a, idOf (f a) = idOf a) (k : Nat) :
    ∀ l : List α,
      (l.map (fun a => if idOf a == k then f a else a)).find? (fun a => idOf a == k) =
        (l.find? (fun a => idOf a == k)).map f
  | [] => rfl
  | a :: l => by
    by_cases h : (idOf a == k) = true
    · have e : (if idOf a == k then f a else a) = f a := if_pos h
      have h2 : (idOf (f a) == k) = true := by rw [hf]; exact h
      rw [List.map_cons, e, List.find?_cons_of_pos (p := fun x => idOf x == k) _ h2,
        List.find?_cons_of_pos (p := fun x => idOf x == k) _ h]
      rfl
    · have e : (if idOf a == k then f a else a) = a := if_neg h
      rw [List.map_cons, e, List.find?_cons_of_neg (p := fun x => idOf x == k) _ h,
        List.find?_cons_of_neg (p := fun x => idOf x == k) _ h]
      exact find?_map_update idOf f hf k l

/-- `storage.updatePaymentStage` followed by the select-by-id read. -/
theorem getPaymentStage_updateStageIn (db : DB) (sid : Nat) (f : PaymentStage → PaymentStage)
    (hf : ∀ s, (f s).id = s.id) :
    getPaymentStage (updateStageIn db sid f) sid = (getPaymentStage db sid).map f := by
  simpa [getPaymentStage, updateStageIn] using
    find?_map_update PaymentStage.id f hf sid db.paymentStages

/-- `storage.updateProject` followed by `storage.getProject`. -/
theorem getProject_updateProjectIn (db : DB) (pid : Nat) (f : Project → Project)
    (hf : ∀ p, (f p).id = p.id) :
    getProject (updateProjectIn db pid f) pid = (getProject db pid).map f := by
  simpa [getProject, updateProjectIn] using
    find?_map_update Project.id f hf pid db.projects

/-- `storage.updateBudgetNegotiation` followed by the select-by-id read. -/
theorem getNegotiation_updateNegotiationIn (db : DB) (nid : Nat)
    (f : BudgetNegotiation → BudgetNegotiation) (hf : ∀ n, (f n).id = n.id) :
    getNegotiation (updateNegotiationIn db nid f) nid = (getNegotiation db nid).map f := by
  simpa [getNegotiation, updateNegotiationIn] using
    find?_map_update BudgetNegotiation.id f hf nid db.budgetNegotiations

/-- Folding `storage.createNotification` over a user list appends one
notification per user, in order, and touches nothing else. -/
theorem foldl_addNotification (g : User → Notification) :
    ∀ (l : List User) (d : DB),
      l.foldl (fun d' a => addNotification d' (g a)) d =
        { d with notifications := d.notifications ++ l.map g }
  | [], d => by
    rw [List.map_nil, List.append_nil]
    rfl
  | a :: l, d => by
    rw [List.foldl_cons, foldl_addNotification g l (addNotification d (g a))]
    simp [addNotification, List.append_assoc]

/-- Creating notification rows never touches the paymentStages table. -/
theorem getPaymentStage_foldl_addNotification (g : User → Notification)
    (l : List User) (d : DB) (sid : Nat) :
    getPaymentStage (l.foldl (fun d' a => addNotification d' (g a)) d) sid =
      getPaymentStage d sid := by
  rw [foldl_addNotification]
  rfl

/-- Unfolding of the stage-creation loop: one stage per spec. -/
theorem createStagesLoop_length (project : Project) :
    ∀ (specs : List StageSpec) (nextId : Nat),
      (createStagesLoop project nextId specs).length = specs.length
  | [], _ => rfl
  | _ :: rest, n => by
    simp [createStagesLoop, createStagesLoop_length project rest (n + 1)]

/-- The i-th created stage is `mkStage` of the i-th spec. -/
theorem createStagesLoop_get (project : Project) :
    ∀ (specs : List StageSpec) (nextId : Nat) (i : Nat) (hi : i < specs.length)
      (hi2 : i < (createStagesLoop project nextId specs).length),
      (createStagesLoop project nextId specs).get ⟨i, hi2⟩ =
        mkStage project (nextId + i) (specs.get ⟨i, hi⟩)
  | [], _, i, hi, _ => absurd hi (Nat.not_lt_zero i)
  | spec :: rest, n, 0, _, _ => by simp [createStagesLoop]
  | spec :: rest, n, i + 1, hi, hi2 => by
    simp only [createStagesLoop, List.get_cons_succ]
    rw [createStagesLoop_get project rest (n + 1) i (Nat.lt_of_succ_lt_succ hi)]
    congr 1
    omega

/-! ### C1 -/

/-- **C1.** For every payment stage, approve and reject succeed only when
the stage's current status is exactly `pending_verification`: on a stage
found in any other status both handlers return the InvalidState error
"Esta etapa no está pendiente de verificación" and hand back the store
untouched (so every field of the stage is unchanged), before any project
lookup or write.  In particular a successful response is impossible
outside `pending_verification`. -/
theorem approve_reject_only_pending_verification (db : DB)
    (stageId adminId now : Nat) (reason : String) (notifOk : Bool) (stage : PaymentStage)
    (hfind : getPaymentStage db stageId = some stage)
    (hst : stage.status ≠ "pending_verification") :
    approvePayment db stageId adminId now notifOk =
      ⟨db, [], .error (.invalidState "Esta etapa no está pendiente de verificación")⟩ ∧
    rejectPayment db stageId adminId reason now notifOk =
      ⟨db, [], .error (.invalidState "Esta etapa no está pendiente de verificación")⟩ := by
  have hb : (stage.status != "pending_verification") = true := by
    simp [bne_iff_ne, hst]
  constructor
  · unfold approvePayment
    rw [hfind]
    simp [hb]
  · unfold rejectPayment
    rw [hfind]
    simp [hb]

/-- C1 witness: the paid stage of `dbPaid` can be neither approved nor
rejected. -/
theorem approve_reject_only_pending_verification_witness :
    (getPaymentStage dbPaid 1 = some paidStage ∧ paidStage.status ≠ "pending_verification") ∧
    (approvePayment dbPaid 1 9 100 true =
      ⟨dbPaid, [], .error (.invalidState "Esta etapa no está pendiente de verificación")⟩ ∧
     rejectPayment dbPaid 1 9 "comprobante ilegible" 100 true =
      ⟨dbPaid, [], .error (.invalidState "Esta etapa no está pendiente de verificación")⟩) :=
  ⟨⟨by decide, by decide⟩,
   approve_reject_only_pending_verification dbPaid 1 9 100 "comprobante ilegible" true
     paidStage (by decide) (by decide)⟩

/-! ### C5 -/

/-- **C5.** Approving a stage in `pending_verification` (with its project
and client present) sets the stage to `paid`, records
`paidAt`/`approvedBy`/`approvedAt`, and appends exactly one notification
record — addressed to the project's client and to nobody else — to the
notifications table. -/
theorem approve_pays_stage_and_notifies_client_once (db : DB)
    (stageId adminId now : Nat) (stage : PaymentStage) (project : Project) (client : User)
    (hfind : getPaymentStage db stageId = some stage)
    (hst : stage.status = "pending_verification")
    (hproj : getProject db stage.projectId = some project)
    (hclient : getUserById db project.clientId = some client) :
    ∃ dbA,
      approvePayment db stageId adminId now true =
        ⟨dbA, [],
         .ok { stage with
                status := "paid", paidAt := some now,
                approvedBy := some adminId, approvedAt := some now }⟩ ∧
      getPaymentStage dbA stageId =
        some { stage with
               status := "paid", paidAt := some now,
               approvedBy := some adminId, approvedAt := some now } ∧
      dbA.notifications = db.notifications ++
        [{ userId := project.clientId, title := "✅ Pago Aprobado",
           message := approveNotifMessage stage.stageName, type := "success" }] := by
  have hb : (stage.status != "pending_verification") = false := by
    simp [hst]
  have hmain : approvePayment db stageId adminId now true =
      ⟨addNotification (updateStageIn db stageId (fun s =>
          { s with
            status := "paid", paidAt := some now,
            approvedBy := some adminId, approvedAt := some now }))
         { userId := project.clientId, title := "✅ Pago Aprobado",
           message := approveNotifMessage stage.stageName, type := "success" }, [],
       .ok { stage with
             status := "paid", paidAt := some now,
             approvedBy := some adminId, approvedAt := some now }⟩ := by
    unfold approvePayment
    rw [hfind]
    simp [hb, hproj, hclient]
  refine ⟨_, hmain, ?_, ?_⟩
  · have h1 : getPaymentStage (addNotification (updateStageIn db stageId (fun s =>
          { s with
            status := "paid", paidAt := some now,
            approvedBy := some adminId, approvedAt := some now }))
         { userId := project.clientId, title := "✅ Pago Aprobado",
           message := approveNotifMessage stage.stageName, type := "success" }) stageId =
        getPaymentStage (updateStageIn db stageId (fun s =>
          { s with
            status := "paid", paidAt := some now,
            approvedBy := some adminId, approvedAt := some now })) stageId := rfl
    rw [h1, getPaymentStage_updateStageIn db stageId (fun s =>
          { s with
            status := "paid", paidAt := some now,
            approvedBy := some adminId, approvedAt := some now }) (fun s => rfl), hfind]
    rfl
  · simp [addNotification, updateStageIn]

/-- C5 witness: approving the pending-verification stage of `dbPV`. -/
theorem approve_pays_stage_and_notifies_client_once_witness :
    (getPaymentStage dbPV 1 = some pvStage ∧ pvStage.status = "pending_verification" ∧
     getProject dbPV pvStage.projectId = some sampleProject ∧
     getUserById dbPV sampleProject.clientId = some clientUser) ∧
    ∃ dbA,
      approvePayment dbPV 1 9 100 true =
        ⟨dbA, [],
         .ok { pvStage with
                status := "paid", paidAt := some 100,
                approvedBy := some 9, approvedAt := some 100 }⟩ ∧
      getPaymentStage dbA 1 =
        some { pvStage with
               status := "paid", paidAt := some 100,
               approvedBy := some 9, approvedAt := some 100 } ∧
      dbA.notifications = dbPV.notifications ++
        [{ userId := sampleProject.clientId, title := "✅ Pago Aprobado",
           message := approveNotifMessage pvStage.stageName, type := "success" }] :=
  ⟨⟨by decide, by decide, by decide, by decide⟩,
   approve_pays_stage_and_notifies_client_once dbPV 1 9 100 pvStage sampleProject clientUser
     (by decide) (by decide) (by decide) (by decide)⟩

/-! ### C4 -/

/-- **C4.** Rejecting a stage in `pending_verification` (project present)
sets its status back to `available`, clears `paymentMethod` and the
proof-file reference, keeps every previously stored payment-metadata
field while adding the rejecting admin's id, the timestamp and the
rejection reason, and appends one client notification whose message
contains the literal reason text. -/
theorem reject_resets_stage_preserves_metadata (db : DB)
    (stageId adminId now : Nat) (reason : String) (stage : PaymentStage) (project : Project)
    (hfind : getPaymentStage db stageId = some stage)
    (hst : stage.status = "pending_verification")
    (hproj : getProject db stage.projectId = some project) :
    ∃ dbA,
      rejectPayment db stageId adminId reason now true =
        ⟨dbA, [],
         .ok { stage with
               status := "available", paymentMethod := none, proofFileUrl := none,
               paymentData :=
                 { stage.paymentData with
                   rejectedBy := some adminId, rejectedAt := some now,
                   rejectionReason := some reason } }⟩ ∧
      getPaymentStage dbA stageId =
        some { stage with
               status := "available", paymentMethod := none, proofFileUrl := none,
               paymentData :=
                 { stage.paymentData with
                   rejectedBy := some adminId, rejectedAt := some now,
                   rejectionReason := some reason } } ∧
      ({ stage.paymentData with
         rejectedBy := some adminId, rejectedAt := some now,
         rejectionReason := some reason } : PaymentData).confirmedBy =
          stage.paymentData.confirmedBy ∧
      ({ stage.paymentData with
         rejectedBy := some adminId, rejectedAt := some now,
         rejectionReason := some reason } : PaymentData).confirmedAt =
          stage.paymentData.confirmedAt ∧
      ({ stage.paymentData with
         rejectedBy := some adminId, rejectedAt := some now,
         rejectionReason := some reason } : PaymentData).method =
          stage.paymentData.method ∧
      ({ stage.paymentData with
         rejectedBy := some adminId, rejectedAt := some now,
         rejectionReason := some reason } : PaymentData).fileInfo =
          stage.paymentData.fileInfo ∧
      ({ stage.paymentData with
         rejectedBy := some adminId, rejectedAt := some now,
         rejectionReason := some reason } : PaymentData).originalFileName =
          stage.paymentData.originalFileName ∧
      dbA.notifications = db.notifications ++
        [{ userId := project.clientId, title := "❌ Pago Rechazado",
           message := rejectNotifMessage stage.stageName reason, type := "error" }] ∧
      ∃ pre post, rejectNotifMessage stage.stageName reason = pre ++ reason ++ post := by
  have hb : (stage.status != "pending_verification") = false := by
    simp [hst]
  have hmain : rejectPayment db stageId adminId reason now true =
      ⟨addNotification (updateStageIn db stageId (fun s =>
          { s with
            status := "available", paymentMethod := none, proofFileUrl := none,
            paymentData :=
              { s.paymentData with
                rejectedBy := some adminId, rejectedAt := some now,
                rejectionReason := some reason } }))
         { userId := project.clientId, title := "❌ Pago Rechazado",
           message := rejectNotifMessage stage.stageName reason, type := "error" }, [],
       .ok { stage with
             status := "available", paymentMethod := none, proofFileUrl := none,
             paymentData :=
               { stage.paymentData with
                 rejectedBy := some adminId, rejectedAt := some now,
                 rejectionReason := some reason } }⟩ := by
    unfold rejectPayment
    rw [hfind]
    simp [hb, hproj]
  refine ⟨_, hmain, ?_, rfl, rfl, rfl, rfl, rfl, ?_, ?_⟩
  · have h1 : getPaymentStage (addNotification (updateStageIn db stageId (fun s =>
          { s with
            status := "available", paymentMethod := none, proofFileUrl := none,
            paymentData :=
              { s.paymentData with
                rejectedBy := some adminId, rejectedAt := some now,
                rejectionReason := some reason } }))
         { userId := project.clientId, title := "❌ Pago Rechazado",
           message := rejectNotifMessage stage.stageName reason, type := "error" }) stageId =
        getPaymentStage (updateStageIn db stageId (fun s =>
          { s with
            status := "available", paymentMethod := none, proofFileUrl := none,
            paymentData :=
              { s.paymentData with
                rejectedBy := some adminId, rejectedAt := some now,
                rejectionReason := some reason } })) stageId := rfl
    rw [h1, getPaymentStage_updateStageIn db stageId (fun s =>
          { s with
            status := "available", paymentMethod := none, proofFileUrl := none,
            paymentData :=
              { s.paymentData with
                rejectedBy := some adminId, rejectedAt := some now,
                rejectionReason := some reason } }) (fun s => rfl), hfind]
    rfl
  · simp [addNotification, updateStageIn]
  · refine ⟨"Tu comprobante de pago para \"" ++ stage.stageName ++ "\" fue rechazado. Motivo: ",
      ". Por favor, envía un nuevo comprobante.", ?_⟩
    unfold rejectNotifMessage
    rw [String.append_assoc, String.append_assoc]

/-- C4 witness: rejecting the pending-verification stage of `dbPV` with
reason "comprobante ilegible". -/
theorem reject_resets_stage_preserves_metadata_witness :
    (getPaymentStage dbPV 1 = some pvStage ∧ pvStage.status = "pending_verification" ∧
     getProject dbPV pvStage.projectId = some sampleProject) ∧
    ∃ dbA,
      rejectPayment dbPV 1 9 "comprobante ilegible" 100 true =
        ⟨dbA, [],
         .ok { pvStage with
               status := "available", paymentMethod := none, proofFileUrl := none,
               paymentData :=
                 { pvStage.paymentData with
                   rejectedBy := some 9, rejectedAt := some 100,
                   rejectionReason := some "comprobante ilegible" } }⟩ ∧
      getPaymentStage dbA 1 =
        some { pvStage with
               status := "available", paymentMethod := none, proofFileUrl := none,
               paymentData :=
                 { pvStage.paymentData with
                   rejectedBy := some 9, rejectedAt := some 100,
                   rejectionReason := some "comprobante ilegible" } } ∧
      ({ pvStage.paymentData with
         rejectedBy := some 9, rejectedAt := some 100,
         rejectionReason := some "comprobante ilegible" } : PaymentData).confirmedBy =
          pvStage.paymentData.confirmedBy ∧
      ({ pvStage.paymentData with
         rejectedBy := some 9, rejectedAt := some 100,
         rejectionReason := some "comprobante ilegible" } : PaymentData).confirmedAt =
          pvStage.paymentData.confirmedAt ∧
      ({ pvStage.paymentData with
         rejectedBy := some 9, rejectedAt := some 100,
         rejectionReason := some "comprobante ilegible" } : PaymentData).method =
          pvStage.paymentData.method ∧
      ({ pvStage.paymentData with
         rejectedBy := some 9, rejectedAt := some 100,
         rejectionReason := some "comprobante ilegible" } : PaymentData).fileInfo =
          pvStage.paymentData.fileInfo ∧
      ({ pvStage.paymentData with
         rejectedBy := some 9, rejectedAt := some 100,
         rejectionReason := some "comprobante ilegible" } : PaymentData).originalFileName =
          pvStage.paymentData.originalFileName ∧
      dbA.notifications = dbPV.notifications ++
        [{ userId := sampleProject.clientId, title := "❌ Pago Rechazado",
           message := rejectNotifMessage pvStage.stageName "comprobante ilegible",
           type := "error" }] ∧
      ∃ pre post,
        rejectNotifMessage pvStage.stageName "comprobante ilegible" =
          pre ++ "comprobante ilegible" ++ post :=
  ⟨⟨by decide, by decide, by decide⟩,
   reject_resets_stage_preserves_metadata dbPV 1 9 100 "comprobante ilegible"
     pvStage sampleProject (by decide) (by decide) (by decide)⟩

/-! ### C2 -/

/-- **C2.** Submitting proof of payment on an existing stage (project and
client present) sets the stage's status to `pending_verification`
regardless of its current status, and records the payment method, the
synthesized proof-file reference name, the submitter's id and the
timestamp; when the stage, its project or the project's client is
missing, the handler fails with the corresponding NotFound error and the
store is handed back untouched.  One warning notification per admin is
appended. -/
theorem confirm_payment_sets_pending_verification (db : DB)
    (stageId userId now : Nat) (paymentMethod : String)
    (f : FileUpload) (info : Option FileInfo) (emailOk : Bool) :
    (getPaymentStage db stageId = none →
      confirmPayment db stageId userId paymentMethod (some f) info now emailOk true =
        ⟨db, [], .error (.notFound "Etapa no encontrada")⟩) ∧
    (∀ stage, getPaymentStage db stageId = some stage →
      getProject db stage.projectId = none →
      confirmPayment db stageId userId paymentMethod (some f) info now emailOk true =
        ⟨db, [], .error (.notFound "Proyecto no encontrado")⟩) ∧
    (∀ stage project, getPaymentStage db stageId = some stage →
      getProject db stage.projectId = some project →
      getUserById db project.clientId = none →
      confirmPayment db stageId userId paymentMethod (some f) info now emailOk true =
        ⟨db, [], .error (.notFound "Cliente no encontrado")⟩) ∧
    (∀ stage project client, getPaymentStage db stageId = some stage →
      getProject db stage.projectId = some project →
      getUserById db project.clientId = some client →
      (confirmPayment db stageId userId paymentMethod (some f) info now emailOk true).resp =
        .ok { stage with
              paymentMethod := some paymentMethod,
              proofFileUrl := some ("comprobante_" ++ toString stageId ++ "_" ++
                toString now ++ "_" ++ f.originalname),
              status := "pending_verification",
              paymentData := confirmPaymentData userId now paymentMethod (some f) info } ∧
      getPaymentStage
          (confirmPayment db stageId userId paymentMethod (some f) info now emailOk true).db
          stageId =
        some { stage with
              paymentMethod := some paymentMethod,
              proofFileUrl := some ("comprobante_" ++ toString stageId ++ "_" ++
                toString now ++ "_" ++ f.originalname),
              status := "pending_verification",
              paymentData := confirmPaymentData userId now paymentMethod (some f) info } ∧
      (confirmPaymentData userId now paymentMethod (some f) info).confirmedBy = some userId ∧
      (confirmPaymentData userId now paymentMethod (some f) info).confirmedAt = some now ∧
      (confirmPaymentData userId now paymentMethod (some f) info).method = some paymentMethod ∧
      (confirmPayment db stageId userId paymentMethod (some f) info now emailOk true).db.notifications =
        db.notifications ++ (getUsersByRole db "admin").map (fun a =>
          { userId := a.id, title := "📋 Comprobante de Pago Recibido",
            message := confirmNotifMessage client.fullName stage.stageName paymentMethod (some f),
            type := "warning" })) := by
  refine ⟨?_, ?_, ?_, ?_⟩
  · intro h1
    unfold confirmPayment
    rw [h1]
  · intro stage h1 h2
    unfold confirmPayment
    rw [h1]
    simp [h2]
  · intro stage project h1 h2 h3
    unfold confirmPayment
    rw [h1]
    simp [h2, h3]
  · intro stage project client h1 h2 h3
    have hmain : confirmPayment db stageId userId paymentMethod (some f) info now emailOk true =
        ⟨(getUsersByRole db "admin").foldl (fun d a => addNotification d
            { userId := a.id, title := "📋 Comprobante de Pago Recibido",
              message := confirmNotifMessage client.fullName stage.stageName paymentMethod (some f),
              type := "warning" })
          (updateStageIn db stageId (fun s =>
            { s with
              paymentMethod := some paymentMethod,
              proofFileUrl := synthProofFileUrl stageId now (some f) info,
              status := "pending_verification",
              paymentData := confirmPaymentData userId now paymentMethod (some f) info })),
         (if emailOk then
            [⟨"admin", "paymentProofNotificationToAdmin"⟩,
             ⟨client.email, "paymentProofConfirmationToClient"⟩]
          else []),
         .ok { stage with
               paymentMethod := some paymentMethod,
               proofFileUrl := synthProofFileUrl stageId now (some f) info,
               status := "pending_verification",
               paymentData := confirmPaymentData userId now paymentMethod (some f) info }⟩ := by
      unfold confirmPayment
      rw [h1]
      simp only [h2, h3]
      rfl
    rw [hmain, foldl_addNotification]
    refine ⟨rfl, ?_, rfl, rfl, rfl, ?_⟩
    · show getPaymentStage (updateStageIn db stageId _) stageId = _
      rw [getPaymentStage_updateStageIn db stageId (fun s =>
            { s with
              paymentMethod := some paymentMethod,
              proofFileUrl := synthProofFileUrl stageId now (some f) info,
              status := "pending_verification",
              paymentData := confirmPaymentData userId now paymentMethod (some f) info })
            (fun s => rfl), h1]
      rfl
    · rfl

/-- C2 witness: submitting proof on the already-paid stage of `dbPaid`
(no guard against re-submission) with an uploaded PNG. -/
theorem confirm_payment_sets_pending_verification_witness :
    (getPaymentStage dbPaid 1 = some paidStage ∧
     getProject dbPaid paidStage.projectId = some sampleProject ∧
     getUserById dbPaid sampleProject.clientId = some clientUser) ∧
    ((confirmPayment dbPaid 1 2 "transferencia_bancaria"
        (some ⟨"recibo2.png", 4096, "image/png"⟩) none 200 true true).resp =
      .ok { paidStage with
            paymentMethod := some "transferencia_bancaria",
            proofFileUrl := some ("comprobante_" ++ toString 1 ++ "_" ++
              toString 200 ++ "_" ++ ("recibo2.png" : String)),
            status := "pending_verification",
            paymentData := confirmPaymentData 2 200 "transferencia_bancaria"
              (some ⟨"recibo2.png", 4096, "image/png"⟩) none } ∧
     getPaymentStage
        (confirmPayment dbPaid 1 2 "transferencia_bancaria"
          (some ⟨"recibo2.png", 4096, "image/png"⟩) none 200 true true).db 1 =
      some { paidStage with
            paymentMethod := some "transferencia_bancaria",
            proofFileUrl := some ("comprobante_" ++ toString 1 ++ "_" ++
              toString 200 ++ "_" ++ ("recibo2.png" : String)),
            status := "pending_verification",
            paymentData := confirmPaymentData 2 200 "transferencia_bancaria"
              (some ⟨"recibo2.png", 4096, "image/png"⟩) none } ∧
     (confirmPaymentData 2 200 "transferencia_bancaria"
        (some ⟨"recibo2.png", 4096, "image/png"⟩) none).confirmedBy = some 2 ∧
     (confirmPaymentData 2 200 "transferencia_bancaria"
        (some ⟨"recibo2.png", 4096, "image/png"⟩) none).confirmedAt = some 200 ∧
     (confirmPaymentData 2 200 "transferencia_bancaria"
        (some ⟨"recibo2.png", 4096, "image/png"⟩) none).method =
       some "transferencia_bancaria" ∧
     (confirmPayment dbPaid 1 2 "transferencia_bancaria"
        (some ⟨"recibo2.png", 4096, "image/png"⟩) none 200 true true).db.notifications =
       dbPaid.notifications ++ (getUsersByRole dbPaid "admin").map (fun a =>
         { userId := a.id, title := "📋 Comprobante de Pago Recibido",
           message := confirmNotifMessage clientUser.fullName paidStage.stageName
             "transferencia_bancaria" (some ⟨"recibo2.png", 4096, "image/png"⟩),
           type := "warning" })) :=
  ⟨⟨by decide, by decide, by decide⟩,
   (confirm_payment_sets_pending_verification dbPaid 1 2 200 "transferencia_bancaria"
      ⟨"recibo2.png", 4096, "image/png"⟩ none true).2.2.2
     paidStage sampleProject clientUser (by decide) (by decide) (by decide)⟩

/-! ### C3 -/

/-- **C3.** Every stage created by the create-stages handler has
`amount = project.price * percentage / 100` and status `available`
exactly when its `requiredProgress` is 0 (else `pending`); concretely,
for the price-1000 project with two 50% stages at thresholds 0 and 50 the
amounts are 500 and 500 and the statuses `available` and `pending`. -/
theorem create_stages_amount_and_status (db : DB) (projectId : Nat)
    (specs : List StageSpec) (emailOk : Bool) (project : Project)
    (hfind : getProject db projectId = some project) :
    ((createPaymentStages db projectId specs emailOk).resp =
       .ok (createStagesLoop project db.nextStageId specs) ∧
     (createStagesLoop project db.nextStageId specs).length = specs.length ∧
     (∀ i (hi : i < specs.length)
        (hi2 : i < (createStagesLoop project db.nextStageId specs).length),
       ((createStagesLoop project db.nextStageId specs).get ⟨i, hi2⟩).amount =
           project.price * (specs.get ⟨i, hi⟩).percentage / 100 ∧
       ((createStagesLoop project db.nextStageId specs).get ⟨i, hi2⟩).status =
           (if (specs.get ⟨i, hi⟩).requiredProgress = 0 then "available" else "pending"))) ∧
    ((createStagesLoop sampleProject freshDB.nextStageId scenarioSpecs).map
        PaymentStage.amount = [500, 500] ∧
     (createStagesLoop sampleProject freshDB.nextStageId scenarioSpecs).map
        PaymentStage.status = ["available", "pending"] ∧
     (createPaymentStages freshDB 1 scenarioSpecs true).resp =
       .ok (createStagesLoop sampleProject freshDB.nextStageId scenarioSpecs)) := by
  refine ⟨⟨?_, createStagesLoop_length project specs db.nextStageId, ?_⟩, ?_, ?_, ?_⟩
  · unfold createPaymentStages
    rw [hfind]
  · intro i hi hi2
    rw [createStagesLoop_get project specs db.nextStageId i hi hi2]
    refine ⟨rfl, ?_⟩
    by_cases h : (specs.get ⟨i, hi⟩).requiredProgress = 0
    · simp [mkStage, h]
    · simp [mkStage, h]
  · norm_num [createStagesLoop, mkStage, scenarioSpecs, sampleProject, freshDB]
  · norm_num [createStagesLoop, mkStage, scenarioSpecs, sampleProject, freshDB]
  · unfold createPaymentStages
    have h : getProject freshDB 1 = some sampleProject := by decide
    rw [h]

/-- C3 witness: instantiating the general part at the scenario store. -/
theorem create_stages_amount_and_status_witness :
    getProject freshDB 1 = some sampleProject ∧
    ((createPaymentStages freshDB 1 scenarioSpecs true).resp =
       .ok (createStagesLoop sampleProject freshDB.nextStageId scenarioSpecs) ∧
     (createStagesLoop sampleProject freshDB.nextStageId scenarioSpecs).length =
       scenarioSpecs.length ∧
     (∀ i (hi : i < scenarioSpecs.length)
        (hi2 : i < (createStagesLoop sampleProject freshDB.nextStageId scenarioSpecs).length),
       ((createStagesLoop sampleProject freshDB.nextStageId scenarioSpecs).get ⟨i, hi2⟩).amount =
           sampleProject.price * (scenarioSpecs.get ⟨i, hi⟩).percentage / 100 ∧
       ((createStagesLoop sampleProject freshDB.nextStageId scenarioSpecs).get ⟨i, hi2⟩).status =
           (if (scenarioSpecs.get ⟨i, hi⟩).requiredProgress = 0 then "available"
            else "pending"))) :=
  ⟨by decide,
   (create_stages_amount_and_status freshDB 1 scenarioSpecs true sampleProject (by decide)).1⟩

/-! ### C6 -/

/-- **C6.** Accepting an existing budget negotiation overwrites the
project's price with the negotiation's proposed price and forces the
project status to `in_progress`, sets the negotiation's own status to
`accepted`, and leaves the paymentStages table — hence every
already-captured stage amount — completely unchanged. -/
theorem accept_negotiation_updates_price_keeps_stage_amounts (db : DB)
    (negotiationId userId : Nat) (message : Option String) (counterPrice : Option ℚ)
    (emailOk : Bool) (neg : BudgetNegotiation)
    (hneg : getNegotiation db negotiationId = some neg) :
    getProject
        (respondBudgetNegotiation db negotiationId userId "accepted" message
          counterPrice emailOk).db neg.projectId =
      (getProject db neg.projectId).map (fun p =>
        { p with price := neg.proposedPrice, status := "in_progress" }) ∧
    getNegotiation
        (respondBudgetNegotiation db negotiationId userId "accepted" message
          counterPrice emailOk).db negotiationId =
      some { neg with status := "accepted" } ∧
    (respondBudgetNegotiation db negotiationId userId "accepted" message
        counterPrice emailOk).db.paymentStages = db.paymentStages ∧
    (respondBudgetNegotiation db negotiationId userId "accepted" message
        counterPrice emailOk).db.paymentStages.map PaymentStage.amount =
      db.paymentStages.map PaymentStage.amount := by
  have hmain : (respondBudgetNegotiation db negotiationId userId "accepted" message
      counterPrice emailOk).db =
      updateNegotiationIn
        (updateProjectIn db neg.projectId (fun p =>
          { p with price := neg.proposedPrice, status := "in_progress" }))
        negotiationId (fun n => { n with status := "accepted" }) := by
    unfold respondBudgetNegotiation
    simp [hneg]
  rw [hmain]
  refine ⟨?_, ?_, rfl, rfl⟩
  · have h1 : getProject (updateNegotiationIn
        (updateProjectIn db neg.projectId (fun p =>
          { p with price := neg.proposedPrice, status := "in_progress" }))
        negotiationId (fun n => { n with status := "accepted" })) neg.projectId =
        getProject (updateProjectIn db neg.projectId (fun p =>
          { p with price := neg.proposedPrice, status := "in_progress" })) neg.projectId := rfl
    rw [h1, getProject_updateProjectIn db neg.projectId (fun p =>
      { p with price := neg.proposedPrice, status := "in_progress" }) (fun p => rfl)]
  · have h2 : getNegotiation (updateNegotiationIn
        (updateProjectIn db neg.projectId (fun p =>
          { p with price := neg.proposedPrice, status := "in_progress" }))
        negotiationId (fun n => { n with status := "accepted" })) negotiationId =
        (getNegotiation (updateProjectIn db neg.projectId (fun p =>
          { p with price := neg.proposedPrice, status := "in_progress" }))
          negotiationId).map (fun n => { n with status := "accepted" }) :=
      getNegotiation_updateNegotiationIn _ negotiationId
        (fun n => { n with status := "accepted" }) (fun n => rfl)
    rw [h2]
    have h3 : getNegotiation (updateProjectIn db neg.projectId (fun p =>
        { p with price := neg.proposedPrice, status := "in_progress" })) negotiationId =
        getNegotiation db negotiationId := rfl
    rw [h3, hneg]
    rfl

/-- C6 witness: accepting `sampleNegotiation` in `dbNeg`. -/
theorem accept_negotiation_updates_price_keeps_stage_amounts_witness :
    getNegotiation dbNeg 1 = some sampleNegotiation ∧
    (getProject
        (respondBudgetNegotiation dbNeg 1 9 "accepted" none none true).db
        sampleNegotiation.projectId =
      (getProject dbNeg sampleNegotiation.projectId).map (fun p =>
        { p with price := sampleNegotiation.proposedPrice, status := "in_progress" }) ∧
     getNegotiation
        (respondBudgetNegotiation dbNeg 1 9 "accepted" none none true).db 1 =
      some { sampleNegotiation with status := "accepted" } ∧
     (respondBudgetNegotiation dbNeg 1 9 "accepted" none none true).db.paymentStages =
       dbNeg.paymentStages ∧
     (respondBudgetNegotiation dbNeg 1 9 "accepted" none none true).db.paymentStages.map
        PaymentStage.amount = dbNeg.paymentStages.map PaymentStage.amount) :=
  ⟨by decide,
   accept_negotiation_updates_price_keeps_stage_amounts dbNeg 1 9 none none true
     sampleNegotiation (by decide)⟩

/-! ### C7 -/

/-- **C7.** Countering an existing negotiation N (with a truthy counter
price p, and a fresh serial id for the new row) appends a brand-new
negotiation N-prime whose `originalPrice` is N's `proposedPrice`, whose
proposer is the responding user and whose status is `pending`, while N
itself merely gets status `countered` and every other row is untouched —
the negotiations table grows append-only. -/
theorem counter_negotiation_appends_pending_row (db : DB)
    (negotiationId userId : Nat) (message : Option String) (p : ℚ)
    (emailOk : Bool) (neg : BudgetNegotiation)
    (hneg : getNegotiation db negotiationId = some neg)
    (hp : p ≠ 0)
    (hfresh : db.nextNegotiationId ≠ negotiationId) :
    (respondBudgetNegotiation db negotiationId userId "countered" message
        (some p) emailOk).db.budgetNegotiations =
      (db.budgetNegotiations.map (fun n =>
        if n.id == negotiationId then { n with status := "countered" } else n)) ++
      [{ id := db.nextNegotiationId, projectId := neg.projectId, proposedBy := userId,
         originalPrice := neg.proposedPrice, proposedPrice := p, message := message,
         status := "pending" }] ∧
    getNegotiation (respondBudgetNegotiation db negotiationId userId "countered" message
        (some p) emailOk).db negotiationId = some { neg with status := "countered" } := by
  have hbne : (p != 0) = true := by simp [bne_iff_ne, hp]
  have hfreshb : (db.nextNegotiationId == negotiationId) = false := by
    simp [hfresh]
  have hmain : (respondBudgetNegotiation db negotiationId userId "countered" message
      (some p) emailOk).db =
      updateNegotiationIn
        (createNegotiationRow db neg.projectId userId neg.proposedPrice p message "pending")
        negotiationId (fun n => { n with status := "countered" }) := by
    unfold respondBudgetNegotiation
    simp [hneg, counterPriceTruthy, hbne]
  have h1 : (respondBudgetNegotiation db negotiationId userId "countered" message
      (some p) emailOk).db.budgetNegotiations =
      (db.budgetNegotiations.map (fun n =>
        if n.id == negotiationId then { n with status := "countered" } else n)) ++
      [{ id := db.nextNegotiationId, projectId := neg.projectId, proposedBy := userId,
         originalPrice := neg.proposedPrice, proposedPrice := p, message := message,
         status := "pending" }] := by
    rw [hmain]
    show ((db.budgetNegotiations ++ _).map _) = _
    rw [List.map_append]
    simp [hfreshb, hfresh]
  refine ⟨h1, ?_⟩
  have hneg2 : db.budgetNegotiations.find? (fun n => n.id == negotiationId) = some neg := hneg
  unfold getNegotiation
  rw [h1, List.find?_append,
    find?_map_update BudgetNegotiation.id (fun n => { n with status := "countered" })
      (fun n => rfl) negotiationId db.budgetNegotiations, hneg2]
  rfl

/-- C7 witness: the admin counters `sampleNegotiation` in `dbNeg` with
price 900. -/
theorem counter_negotiation_appends_pending_row_witness :
    (getNegotiation dbNeg 1 = some sampleNegotiation ∧ (900 : ℚ) ≠ 0 ∧
     dbNeg.nextNegotiationId ≠ 1) ∧
    ((respondBudgetNegotiation dbNeg 1 9 "countered" (some "Contraoferta") (some 900)
        true).db.budgetNegotiations =
      (dbNeg.budgetNegotiations.map (fun n =>
        if n.id == 1 then { n with status := "countered" } else n)) ++
      [{ id := dbNeg.nextNegotiationId, projectId := sampleNegotiation.projectId,
         proposedBy := 9, originalPrice := sampleNegotiation.proposedPrice,
         proposedPrice := 900, message := some "Contraoferta", status := "pending" }] ∧
     getNegotiation (respondBudgetNegotiation dbNeg 1 9 "countered" (some "Contraoferta")
        (some 900) true).db 1 = some { sampleNegotiation with status := "countered" }) :=
  ⟨⟨by decide, by decide, by decide⟩,
   counter_negotiation_appends_pending_row dbNeg 1 9 (some "Contraoferta") 900 true
     sampleNegotiation (by decide) (by decide) (by decide)⟩

/-! ### C8 -/

/-- **C8.** For an owning client, the settlement-document endpoint
succeeds only on a `paid` stage — any other status yields the
InvalidState error — and on success the document's stage number is the
stage's 1-based index in the project's stages sorted ascending by
`requiredProgress` (a genuinely sorted permutation of the project's
stage list), presented together with the total stage count. -/
theorem settlement_document_requires_paid_and_numbers_stage (db : DB)
    (stageId : Nat) (user : User) (stage : PaymentStage) (project : Project)
    (hfind : getPaymentStage db stageId = some stage)
    (hproj : getProject db stage.projectId = some project)
    (howner : project.clientId = user.id) :
    (stage.status ≠ "paid" →
       downloadStageInvoice db stageId user =
         .error (.invalidState "Esta etapa aún no ha sido pagada")) ∧
    (stage.status = "paid" →
       downloadStageInvoice db stageId user =
         .ok { stageNumber :=
                 (sortStagesByProgress (getPaymentStages db stage.projectId)).findIdx
                   (fun s => s.id == stage.id) + 1,
               totalStages :=
                 (sortStagesByProgress (getPaymentStages db stage.projectId)).length } ∧
       List.Pairwise (fun a b => a.requiredProgress ≤ b.requiredProgress)
         (sortStagesByProgress (getPaymentStages db stage.projectId)) ∧
       (sortStagesByProgress (getPaymentStages db stage.projectId)).Perm
         (getPaymentStages db stage.projectId) ∧
       (sortStagesByProgress (getPaymentStages db stage.projectId)).findIdx
           (fun s => s.id == stage.id) <
         (sortStagesByProgress (getPaymentStages db stage.projectId)).length) := by
  have hown : (project.clientId != user.id) = false := by
    simp [howner]
  constructor
  · intro h
    have hb : (stage.status != "paid") = true := by simp [bne_iff_ne, h]
    unfold downloadStageInvoice
    rw [hfind]
    simp [hproj, howner, hb]
  · intro h
    have hb : (stage.status != "paid") = false := by simp [h]
    have hmem : stage ∈ sortStagesByProgress (getPaymentStages db stage.projectId) := by
      have hmem0 : stage ∈ db.paymentStages :=
        List.mem_of_find?_eq_some hfind
      have hmem1 : stage ∈ getPaymentStages db stage.projectId := by
        unfold getPaymentStages
        exact List.mem_filter.mpr ⟨hmem0, by simp⟩
      exact ((List.mergeSort_perm (getPaymentStages db stage.projectId)
        (fun a b => a.requiredProgress ≤ b.requiredProgress)).mem_iff).mpr hmem1
    refine ⟨?_, ?_, ?_, ?_⟩
    · unfold downloadStageInvoice
      rw [hfind]
      simp only [hproj, hown, Bool.false_eq_true, if_false, hb]
    · have hsorted := @List.sorted_mergeSort PaymentStage
        (fun a b => a.requiredProgress ≤ b.requiredProgress)
        (fun a b c hab hbc => by
          simp only [decide_eq_true_eq] at *
          omega)
        (fun a b => by
          rcases Int.le_total a.requiredProgress b.requiredProgress with h2 | h2 <;>
            simp [h2])
        (getPaymentStages db stage.projectId)
      exact hsorted.imp (fun h2 => by simpa using h2)
    · exact List.mergeSort_perm (getPaymentStages db stage.projectId) _
    · exact List.findIdx_lt_length_of_exists ⟨stage, hmem, by simp⟩

/-- C8 witness: the paid first stage of `dbPaid`, downloaded by the
owning client, is stage 1 of 2. -/
theorem settlement_document_requires_paid_and_numbers_stage_witness :
    (getPaymentStage dbPaid 1 = some paidStage ∧
     getProject dbPaid paidStage.projectId = some sampleProject ∧
     sampleProject.clientId = clientUser.id ∧ paidStage.status = "paid") ∧
    (downloadStageInvoice dbPaid 1 clientUser =
       .ok { stageNumber :=
               (sortStagesByProgress (getPaymentStages dbPaid paidStage.projectId)).findIdx
                 (fun s => s.id == paidStage.id) + 1,
             totalStages :=
               (sortStagesByProgress (getPaymentStages dbPaid paidStage.projectId)).length } ∧
     List.Pairwise (fun a b => a.requiredProgress ≤ b.requiredProgress)
       (sortStagesByProgress (getPaymentStages dbPaid paidStage.projectId)) ∧
     (sortStagesByProgress (getPaymentStages dbPaid paidStage.projectId)).Perm
       (getPaymentStages dbPaid paidStage.projectId) ∧
     (sortStagesByProgress (getPaymentStages dbPaid paidStage.projectId)).findIdx
         (fun s => s.id == paidStage.id) <
       (sortStagesByProgress (getPaymentStages dbPaid paidStage.projectId)).length) :=
  ⟨⟨by decide, by decide, by decide, by decide⟩,
   (settlement_document_requires_paid_and_numbers_stage dbPaid 1 clientUser paidStage
      sampleProject (by decide) (by decide) (by decide)).2 (by decide)⟩

/-! ### C10 -/

/-- **C10.** Both settlement-document endpoints refuse any authenticated
user who is not the stage's project client — the handlers never consult
the user's role, so an admin is rejected exactly like anyone else — with
the Forbidden error, even for a paid stage. -/
theorem download_invoice_forbidden_for_non_owner (db : DB)
    (stageId : Nat) (user : User) (stage : PaymentStage) (project : Project)
    (hfind : getPaymentStage db stageId = some stage)
    (hproj : getProject db stage.projectId = some project)
    (_hpaid : stage.status = "paid")
    (hne : project.clientId ≠ user.id) :
    downloadStageInvoice db stageId user =
      .error (.forbidden "No tienes permisos para ver esta factura") ∧
    downloadStageInvoiceResimple db stageId user =
      .error (.forbidden "No tienes permisos para ver esta factura") := by
  constructor
  · unfold downloadStageInvoice
    rw [hfind]
    simp [hproj, hne]
  · unfold downloadStageInvoiceResimple
    rw [hfind]
    simp [hproj, hne]

/-- C10 witness: the admin account (role `admin`, id 9) is refused the
paid stage of `dbPaid`, whose project belongs to client id 2. -/
theorem download_invoice_forbidden_for_non_owner_witness :
    (getPaymentStage dbPaid 1 = some paidStage ∧
     getProject dbPaid paidStage.projectId = some sampleProject ∧
     paidStage.status = "paid" ∧ sampleProject.clientId ≠ adminUser.id ∧
     adminUser.role = "admin") ∧
    (downloadStageInvoice dbPaid 1 adminUser =
      .error (.forbidden "No tienes permisos para ver esta factura") ∧
     downloadStageInvoiceResimple dbPaid 1 adminUser =
      .error (.forbidden "No tienes permisos para ver esta factura")) :=
  ⟨⟨by decide, by decide, by decide, by decide, by decide⟩,
   download_invoice_forbidden_for_non_owner dbPaid 1 adminUser paidStage sampleProject
     (by decide) (by decide) (by decide) (by decide)⟩

/-! ### C9 -/

/-- **C9 counterexample.** At the concrete store `dbPV`, approving stage 1
while the durable-notification channel fails leaves the stage mutated to
`paid` — the core state change did succeed and is not rolled back — yet
the handler reports an internal error instead of success: a failure in
that downstream channel is not swallowed, contrary to the claim. -/
theorem notification_failure_reported_counterexample :
    (approvePayment dbPV 1 9 100 false).resp =
      .error (.internal "Error al aprobar pago") ∧
    getPaymentStage (approvePayment dbPV 1 9 100 false).db 1 =
      some { pvStage with
             status := "paid", paidAt := some 100,
             approvedBy := some 9, approvedAt := some 100 } := by
  constructor
  · decide
  · decide

/-- **C9 amended.** Once the core stage mutation has succeeded, an
e-mail-channel failure is swallowed and only logged — the submit-proof
operation still reports success, keeps the mutation and just sends no
mail — and no downstream failure ever rolls the stage mutation back; but
a failure while persisting the durable notification record is reported
to the caller as an internal error (not success) in all three
operations, with the stage mutation retained. -/
theorem email_failure_swallowed_notification_failure_reported (db : DB)
    (stageId userId adminId now : Nat) (paymentMethod reason : String)
    (f : FileUpload) (info : Option FileInfo)
    (stage : PaymentStage) (project : Project) (client : User)
    (hfind : getPaymentStage db stageId = some stage)
    (hst : stage.status = "pending_verification")
    (hproj : getProject db stage.projectId = some project)
    (hclient : getUserById db project.clientId = some client) :
    ((confirmPayment db stageId userId paymentMethod (some f) info now false true).resp =
       .ok { stage with
             paymentMethod := some paymentMethod,
             proofFileUrl := synthProofFileUrl stageId now (some f) info,
             status := "pending_verification",
             paymentData := confirmPaymentData userId now paymentMethod (some f) info } ∧
     getPaymentStage (confirmPayment db stageId userId paymentMethod (some f) info now
         false true).db stageId =
       some { stage with
             paymentMethod := some paymentMethod,
             proofFileUrl := synthProofFileUrl stageId now (some f) info,
             status := "pending_verification",
             paymentData := confirmPaymentData userId now paymentMethod (some f) info } ∧
     (confirmPayment db stageId userId paymentMethod (some f) info now false true).emails =
       []) ∧
    ((confirmPayment db stageId userId paymentMethod (some f) info now true false).resp =
       .error (.internal "Error interno del servidor") ∧
     getPaymentStage (confirmPayment db stageId userId paymentMethod (some f) info now
         true false).db stageId =
       some { stage with
             paymentMethod := some paymentMethod,
             proofFileUrl := synthProofFileUrl stageId now (some f) info,
             status := "pending_verification",
             paymentData := confirmPaymentData userId now paymentMethod (some f) info }) ∧
    ((approvePayment db stageId adminId now false).resp =
       .error (.internal "Error al aprobar pago") ∧
     getPaymentStage (approvePayment db stageId adminId now false).db stageId =
       some { stage with
             status := "paid", paidAt := some now,
             approvedBy := some adminId, approvedAt := some now }) ∧
    ((rejectPayment db stageId adminId reason now false).resp =
       .error (.internal "Error al rechazar pago") ∧
     getPaymentStage (rejectPayment db stageId adminId reason now false).db stageId =
       some { stage with
             status := "available", paymentMethod := none, proofFileUrl := none,
             paymentData :=
               { stage.paymentData with
                 rejectedBy := some adminId, rejectedAt := some now,
                 rejectionReason := some reason } }) := by
  have hb : (stage.status != "pending_verification") = false := by simp [hst]
  have hma : confirmPayment db stageId userId paymentMethod (some f) info now false true =
      ⟨(getUsersByRole db "admin").foldl (fun d a => addNotification d
          { userId := a.id, title := "📋 Comprobante de Pago Recibido",
            message := confirmNotifMessage client.fullName stage.stageName paymentMethod
              (some f),
            type := "warning" })
        (updateStageIn db stageId (fun s =>
          { s with
            paymentMethod := some paymentMethod,
            proofFileUrl := synthProofFileUrl stageId now (some f) info,
            status := "pending_verification",
            paymentData := confirmPaymentData userId now paymentMethod (some f) info })),
       [],
       .ok { stage with
             paymentMethod := some paymentMethod,
             proofFileUrl := synthProofFileUrl stageId now (some f) info,
             status := "pending_verification",
             paymentData := confirmPaymentData userId now paymentMethod (some f) info }⟩ := by
    unfold confirmPayment
    rw [hfind]
    simp only [hproj, hclient]
    rfl
  have hmb : confirmPayment db stageId userId paymentMethod (some f) info now true false =
      ⟨updateStageIn db stageId (fun s =>
          { s with
            paymentMethod := some paymentMethod,
            proofFileUrl := synthProofFileUrl stageId now (some f) info,
            status := "pending_verification",
            paymentData := confirmPaymentData userId now paymentMethod (some f) info }),
       [], .error (.internal "Error interno del servidor")⟩ := by
    unfold confirmPayment
    rw [hfind]
    simp only [hproj, hclient]
    rfl
  have hmc : approvePayment db stageId adminId now false =
      ⟨updateStageIn db stageId (fun s =>
          { s with
            status := "paid", paidAt := some now,
            approvedBy := some adminId, approvedAt := some now }),
       [], .error (.internal "Error al aprobar pago")⟩ := by
    unfold approvePayment
    rw [hfind]
    simp [hb, hproj, hclient]
  have hmd : rejectPayment db stageId adminId reason now false =
      ⟨updateStageIn db stageId (fun s =>
          { s with
            status := "available", paymentMethod := none, proofFileUrl := none,
            paymentData :=
              { s.paymentData with
                rejectedBy := some adminId, rejectedAt := some now,
                rejectionReason := some reason } }),
       [], .error (.internal "Error al rechazar pago")⟩ := by
    unfold rejectPayment
    rw [hfind]
    simp [hb, hproj]
  refine ⟨⟨?_, ?_, ?_⟩, ⟨?_, ?_⟩, ⟨?_, ?_⟩, ?_, ?_⟩
  · rw [hma]
  · rw [hma]
    show getPaymentStage (List.foldl _ _ _) stageId = _
    rw [getPaymentStage_foldl_addNotification,
      getPaymentStage_updateStageIn db stageId (fun s =>
        { s with
          paymentMethod := some paymentMethod,
          proofFileUrl := synthProofFileUrl stageId now (some f) info,
          status := "pending_verification",
          paymentData := confirmPaymentData userId now paymentMethod (some f) info })
        (fun s => rfl), hfind]
    rfl
  · rw [hma]
  · rw [hmb]
  · rw [hmb]
    show getPaymentStage (updateStageIn db stageId _) stageId = _
    rw [getPaymentStage_updateStageIn db stageId (fun s =>
        { s with
          paymentMethod := some paymentMethod,
          proofFileUrl := synthProofFileUrl stageId now (some f) info,
          status := "pending_verification",
          paymentData := confirmPaymentData userId now paymentMethod (some f) info })
        (fun s => rfl), hfind]
    rfl
  · rw [hmc]
  · rw [hmc]
    show getPaymentStage (updateStageIn db stageId _) stageId = _
    rw [getPaymentStage_updateStageIn db stageId (fun s =>
        { s with
          status := "paid", paidAt := some now,
          approvedBy := some adminId, approvedAt := some now })
        (fun s => rfl), hfind]
    rfl
  · rw [hmd]
  · rw [hmd]
    show getPaymentStage (updateStageIn db stageId _) stageId = _
    rw [getPaymentStage_updateStageIn db stageId (fun s =>
        { s with
          status := "available", paymentMethod := none, proofFileUrl := none,
          paymentData :=
            { s.paymentData with
              rejectedBy := some adminId, rejectedAt := some now,
              rejectionReason := some reason } })
        (fun s => rfl), hfind]
    rfl

/-- C9 witness for the amended statement: at `dbPV`, a dead e-mail
channel still lets the proof submission succeed, and a dead
durable-notification channel surfaces as an internal error on approve
while the stage still ends up `paid`. -/
theorem email_failure_swallowed_notification_failure_reported_witness :
    (getPaymentStage dbPV 1 = some pvStage ∧
     pvStage.status = "pending_verification" ∧
     getProject dbPV pvStage.projectId = some sampleProject ∧
     getUserById dbPV sampleProject.clientId = some clientUser) ∧
    ((confirmPayment dbPV 1 2 "transferencia_bancaria"
        (some ⟨"recibo2.png", 4096, "image/png"⟩) none 200 false true).resp =
       .ok { pvStage with
             paymentMethod := some "transferencia_bancaria",
             proofFileUrl := synthProofFileUrl 1 200
               (some ⟨"recibo2.png", 4096, "image/png"⟩) none,
             status := "pending_verification",
             paymentData := confirmPaymentData 2 200 "transferencia_bancaria"
               (some ⟨"recibo2.png", 4096, "image/png"⟩) none } ∧
     getPaymentStage (confirmPayment dbPV 1 2 "transferencia_bancaria"
         (some ⟨"recibo2.png", 4096, "image/png"⟩) none 200 false true).db 1 =
       some { pvStage with
             paymentMethod := some "transferencia_bancaria",
             proofFileUrl := synthProofFileUrl 1 200
               (some ⟨"recibo2.png", 4096, "image/png"⟩) none,
             status := "pending_verification",
             paymentData := confirmPaymentData 2 200 "transferencia_bancaria"
               (some ⟨"recibo2.png", 4096, "image/png"⟩) none } ∧
     (confirmPayment dbPV 1 2 "transferencia_bancaria"
        (some ⟨"recibo2.png", 4096, "image/png"⟩) none 200 false true).emails = []) ∧
    ((approvePayment dbPV 1 9 200 false).resp =
       .error (.internal "Error al aprobar pago") ∧
     getPaymentStage (approvePayment dbPV 1 9 200 false).db 1 =
       some { pvStage with
             status := "paid", paidAt := some 200,
             approvedBy := some 9, approvedAt := some 200 }) :=
  ⟨⟨by decide, by decide, by decide, by decide⟩,
   (email_failure_swallowed_notification_failure_reported dbPV 1 2 9 200
      "transferencia_bancaria" "comprobante ilegible" ⟨"recibo2.png", 4096, "image/png"⟩
      none pvStage sampleProject clientUser (by decide) (by decide) (by decide)
      (by decide)).1,
   (email_failure_swallowed_notification_failure_reported dbPV 1 2 9 200
      "transferencia_bancaria" "comprobante ilegible" ⟨"recibo2.png", 4096, "image/png"⟩
      none pvStage sampleProject clientUser (by decide) (by decide) (by decide)
      (by decide)).2.2.1⟩
